import Mathlib

/-!
Shallow embedding of the pyctools core runtime pieces that the claims
concern: the configuration tree (`src/pyctools/core/config.py`) and the
bounded object pool (`src/pyctools/core/objectpool.py`).

Python values stored in leaf configuration nodes are modelled by `PyVal`
(None, int, float, str).  Python floats are modelled by `Rat`: every
operation the source performs on them (comparison with `min`/`max`,
equality) is purely order-theoretic, so no rounding behaviour is involved.
Python exceptions are modelled by returning the post-call state together
with an optional error value (`ValueError` carries the offending value,
as `raise ValueError(str(value))` does; `KeyError` carries the key).
Mutation of `self` is modelled by returning the updated node.

The argparse glue (`parser_add`, `parser_kw`, `parser_set`) and `__repr__`
are not modelled; no claim concerns them.
-/

namespace Pyctools

/-- A Python value as stored in a leaf configuration node. -/
inductive PyVal where
  | vnone
  | vint (n : Int)
  | vfloat (x : Rat)
  | vstr (s : String)
deriving DecidableEq, Repr

/-- Python numeric coercion used by `min`/`max` comparisons: ints and
floats compare by value, other operands raise `TypeError` (`none`). -/
def PyVal.toRat : PyVal → Option Rat
  | .vint n => some (n : Rat)
  | .vfloat x => some x
  | _ => none

/-- Python `min(value, b)` with `b` an int bound: returns `value` when
`value <= b` (Python's `min` returns its first argument on ties), else
the bound; `TypeError` (`none`) for non-numeric `value`. -/
def pyMinI (v : PyVal) (b : Int) : Option PyVal :=
  (v.toRat).map fun x => if x ≤ (b : Rat) then v else .vint b

/-- Python `max(value, b)` with `b` an int bound: returns `value` when
`value >= b`, else the bound. -/
def pyMaxI (v : PyVal) (b : Int) : Option PyVal :=
  (v.toRat).map fun x => if (b : Rat) ≤ x then v else .vint b

/-- Python `min(value, b)` with `b` a float bound. -/
def pyMinQ (v : PyVal) (b : Rat) : Option PyVal :=
  (v.toRat).map fun x => if x ≤ b then v else .vfloat b

/-- Python `max(value, b)` with `b` a float bound. -/
def pyMaxQ (v : PyVal) (b : Rat) : Option PyVal :=
  (v.toRat).map fun x => if b ≤ x then v else .vfloat b

/-! ## `ConfigInt` (config.py lines 141-154)

The base class `ConfigLeafNode.__init__` stores `value`, `dynamic`,
`min_value`, `max_value` and `default = value` without any validation.
`ConfigInt.__init__` then replaces a `None` value by `clip(0)`.
-/

/-- An integer configuration node (`ConfigInt`); for an int node the
`min_value`/`max_value` keywords are ints or `None`. -/
structure ConfigIntNode where
  value : PyVal
  dynamic : Bool
  min_value : Option Int
  max_value : Option Int
  default : PyVal
deriving DecidableEq, Repr

/-- `ConfigLeafNode.clip` monomorphised to an int node: limit by
`max_value` first, then by `min_value`; does not touch the stored value. -/
def ConfigInt.clip (n : ConfigIntNode) (v : PyVal) : Option PyVal :=
  (match n.max_value with
   | some m => pyMinI v m
   | none => some v).bind fun v1 =>
  match n.min_value with
  | some m => pyMaxI v1 m
  | none => some v1

/-- `ConfigInt.validate`: `isinstance(value, int) and self.clip(value) == value`. -/
def ConfigInt.validate (n : ConfigIntNode) (v : PyVal) : Bool :=
  match v with
  | .vint k => ConfigInt.clip n (.vint k) == some (.vint k)
  | _ => false

/-- `ConfigInt.__init__`: the base init stores the given value unvalidated;
if it was `None` the value and default become `clip(0)` (clip on an int
argument never raises, so the `getD` fallback is dead code). -/
def ConfigInt.init (value : PyVal) (dynamic : Bool)
    (min_value max_value : Option Int) : ConfigIntNode :=
  let base : ConfigIntNode :=
    { value := value, dynamic := dynamic, min_value := min_value,
      max_value := max_value, default := value }
  if value = .vnone then
    let v0 := (ConfigInt.clip base (.vint 0)).getD (.vint 0)
    { base with value := v0, default := v0 }
  else base

/-! ## `ConfigFloat` (config.py lines 157-178) -/

/-- A float configuration node (`ConfigFloat`). -/
structure ConfigFloatNode where
  value : PyVal
  dynamic : Bool
  min_value : Option Rat
  max_value : Option Rat
  default : PyVal
  decimals : Int
  wrapping : Bool
deriving DecidableEq, Repr

/-- `ConfigLeafNode.clip` monomorphised to a float node. -/
def ConfigFloat.clip (n : ConfigFloatNode) (v : PyVal) : Option PyVal :=
  (match n.max_value with
   | some m => pyMinQ v m
   | none => some v).bind fun v1 =>
  match n.min_value with
  | some m => pyMaxQ v1 m
  | none => some v1

/-- `ConfigFloat.validate`: `isinstance(value, float) and self.clip(value) == value`
(a Python int is not an instance of `float`). -/
def ConfigFloat.validate (n : ConfigFloatNode) (v : PyVal) : Bool :=
  match v with
  | .vfloat x => ConfigFloat.clip n (.vfloat x) == some (.vfloat x)
  | _ => false

/-- `ConfigFloat.__init__`: as the base init, then a `None` value becomes
`clip(0.0)`. -/
def ConfigFloat.init (value : PyVal) (dynamic : Bool)
    (min_value max_value : Option Rat) (decimals : Int) (wrapping : Bool) :
    ConfigFloatNode :=
  let base : ConfigFloatNode :=
    { value := value, dynamic := dynamic, min_value := min_value,
      max_value := max_value, default := value, decimals := decimals,
      wrapping := wrapping }
  if value = .vnone then
    let v0 := (ConfigFloat.clip base (.vfloat 0)).getD (.vfloat 0)
    { base with value := v0, default := v0 }
  else base

/-! ## `ConfigStr` and `ConfigPath` (config.py lines 131-138, 181-188)

Both validate with `isinstance(value, str)`; neither overrides `__init__`,
so a node constructed without a value stores `None`.
-/

/-- A string configuration node (`ConfigStr`). -/
structure ConfigStrNode where
  value : PyVal
  dynamic : Bool
  default : PyVal
deriving DecidableEq, Repr

/-- `ConfigStr.validate` / `ConfigPath.validate`: `isinstance(value, str)`. -/
def pyIsStr : PyVal → Bool
  | .vstr _ => true
  | _ => false

/-- `ConfigStr(...)` via the unmodified base `__init__`. -/
def ConfigStr.init (value : PyVal) (dynamic : Bool) : ConfigStrNode :=
  { value := value, dynamic := dynamic, default := value }

/-- A file-path configuration node (`ConfigPath`); identical to
`ConfigStr` except for argparse metadata, which is not modelled. -/
structure ConfigPathNode where
  value : PyVal
  dynamic : Bool
  default : PyVal
deriving DecidableEq, Repr

/-- `ConfigPath(...)` via the unmodified base `__init__`. -/
def ConfigPath.init (value : PyVal) (dynamic : Bool) : ConfigPathNode :=
  { value := value, dynamic := dynamic, default := value }

/-! ## `ConfigEnum` (config.py lines 191-215) -/

/-- An enum configuration node (`ConfigEnum`).  `choices` is the mutable
list of admissible values; `extendable` allows `validate` to grow it. -/
structure ConfigEnumNode where
  value : PyVal
  dynamic : Bool
  default : PyVal
  choices : List PyVal
  extendable : Bool
deriving DecidableEq, Repr

/-- `ConfigEnum.__init__`: the initial value is `choices[0]`
(an empty choices list raises `IndexError`, modelled as `none`). -/
def ConfigEnum.init (choices : List PyVal) (extendable dynamic : Bool) :
    Option ConfigEnumNode :=
  match choices with
  | [] => none
  | c :: _ =>
    some { value := c, dynamic := dynamic, default := c,
           choices := choices, extendable := extendable }

/-- `ConfigEnum.validate`: when `extendable` and the value is unknown it
is appended to `choices` first; the result is membership in (the possibly
extended) `choices`.  The mutation of `self.choices` is returned. -/
def ConfigEnum.validate (n : ConfigEnumNode) (v : PyVal) :
    Bool × ConfigEnumNode :=
  let n1 := if n.extendable && !(n.choices.contains v) then
    { n with choices := n.choices ++ [v] } else n
  (n1.choices.contains v, n1)

/-! ## Leaf nodes, uniformly

`ConfigLeaf` gathers the five leaf classes; `ConfigLeaf.set` is the base
class `ConfigLeafNode.set` (`if not self.validate(value): raise
ValueError(str(value)); self.value = value`), dispatching to each
subclass's `validate`.  The error component carries the offending value. -/

/-- One leaf configuration node of any of the five leaf classes. -/
inductive ConfigLeaf where
  | int (n : ConfigIntNode)
  | float (n : ConfigFloatNode)
  | str (n : ConfigStrNode)
  | path (n : ConfigPathNode)
  | enum (n : ConfigEnumNode)
deriving DecidableEq, Repr

/-- The leaf's current `self.value`. -/
def ConfigLeaf.value : ConfigLeaf → PyVal
  | .int n => n.value
  | .float n => n.value
  | .str n => n.value
  | .path n => n.value
  | .enum n => n.value

/-- The dynamic dispatch `self.validate(value)` of the base class `set`:
the boolean result together with the node afterwards (only `ConfigEnum`
actually mutates, by extending `choices`). -/
def ConfigLeaf.validateStep : ConfigLeaf → PyVal → Bool × ConfigLeaf
  | .int n, v => (ConfigInt.validate n v, .int n)
  | .float n, v => (ConfigFloat.validate n v, .float n)
  | .str n, v => (pyIsStr v, .str n)
  | .path n, v => (pyIsStr v, .path n)
  | .enum n, v =>
    let r := ConfigEnum.validate n v
    (r.1, .enum r.2)

/-- Store `value` into `self.value`, keeping the other fields. -/
def ConfigLeaf.withValue : ConfigLeaf → PyVal → ConfigLeaf
  | .int n, v => .int { n with value := v }
  | .float n, v => .float { n with value := v }
  | .str n, v => .str { n with value := v }
  | .path n, v => .path { n with value := v }
  | .enum n, v => .enum { n with value := v }

/-- `ConfigLeafNode.set`: validate, raise `ValueError(str(value))` on
failure, otherwise commit the value. -/
def ConfigLeaf.set (l : ConfigLeaf) (v : PyVal) : ConfigLeaf × Option PyVal :=
  let s := l.validateStep v
  if s.1 then (s.2.withValue v, none) else (s.2, some v)

/-- The state predicate "the current value satisfies the node's own
validation": for numeric nodes `validate(self.value)`, for str and path
nodes `isinstance(self.value, str)`, for enum nodes membership of the
current value in `choices` (the side-effect-free core of
`ConfigEnum.validate`). -/
def ConfigLeaf.valueValid : ConfigLeaf → Bool
  | .int n => ConfigInt.validate n n.value
  | .float n => ConfigFloat.validate n n.value
  | .str n => pyIsStr n.value
  | .path n => pyIsStr n.value
  | .enum n => n.choices.contains n.value

/-! ## The configuration tree (`ConfigParent`, `ConfigGrandParent`)

`ConfigParent` stores a dict from names to child nodes in `self.value`;
`ConfigGrandParent` adds nothing (`pass`), so a single `parent`
constructor models both.  Bulk `ConfigParent.set(mapping)` checks
`isinstance(value, dict)` and then runs `self.value[k].set(v)` for each
entry in dict (insertion) order — one at a time, with no rollback; a
failing child raises out of the loop.  The argument of a bulk set is a
`ConfigValue`: a plain value for a leaf child, a dict for a parent child.

Modelled restriction: passing a dict value to a *leaf* child fails its
`isinstance` validation, exactly as in Python, except for an `extendable`
enum child, which in Python would append the dict to its choices; no
claim exercises that corner and it is modelled as the value simply not
being a member of `choices`. -/

/-- The argument shape of `set` on a tree node: a Python value or a dict. -/
inductive ConfigValue where
  | leaf (v : PyVal)
  | dict (entries : List (String × ConfigValue))

/-- A Python exception escaping a config-tree operation. -/
inductive PyErr where
  | valueError (v : ConfigValue)
  | keyError (k : String)

/-- A node of the configuration tree. -/
inductive ConfigNode where
  | leaf (l : ConfigLeaf)
  | parent (children : List (String × ConfigNode))

/-- `self.value[k]` on a parent's child dict. -/
def lookupChild (cs : List (String × ConfigNode)) (k : String) :
    Option ConfigNode :=
  (cs.find? (fun p => p.1 == k)).map (fun p => p.2)

/-- In-place mutation of child `k` in a parent's child dict (Python dict
keys are unique, so replacing every binding of `k` is the same thing). -/
def updateChild (cs : List (String × ConfigNode)) (k : String)
    (c : ConfigNode) : List (String × ConfigNode) :=
  cs.map fun p => if p.1 == k then (k, c) else p

mutual

/-- `set` on a tree node.  A leaf runs `ConfigLeafNode.set`; a parent
runs `ConfigParent.set`: validate `isinstance(value, dict)`, then apply
each entry to the named child in order.  The returned node is the state
after the call even when an exception is raised. -/
def ConfigNode.set : ConfigNode → ConfigValue → ConfigNode × Option PyErr
  | .leaf l, .leaf v =>
    let r := l.set v
    (.leaf r.1, r.2.map fun w => PyErr.valueError (.leaf w))
  | .leaf l, .dict es => (.leaf l, some (.valueError (.dict es)))
  | .parent cs, .dict es =>
    let r := setEntries cs es
    (.parent r.1, r.2)
  | .parent cs, .leaf v => (.parent cs, some (.valueError (.leaf v)))

/-- The loop `for k, v in value.items(): self.value[k].set(v)`: entries
are applied left to right; a missing key raises `KeyError`; a child's
exception propagates, leaving the updates already made in place. -/
def setEntries : List (String × ConfigNode) → List (String × ConfigValue) →
    List (String × ConfigNode) × Option PyErr
  | cs, [] => (cs, none)
  | cs, (k, v) :: rest =>
    match lookupChild cs k with
    | none => (cs, some (.keyError k))
    | some c =>
      let r := ConfigNode.set c v
      let cs1 := updateChild cs k r.1
      match r.2 with
      | some e => (cs1, some e)
      | none => setEntries cs1 rest

end

/-! ## `ConfigMixin` (config.py lines 279-336)

The mixin owns the live tree `self.config` and the FIFO
`self._configmixin_queue`.  In this pure model `copy.deepcopy` is the
identity: trees are immutable values, so every enqueued or returned tree
is automatically an independent snapshot. -/

/-- The configuration state of a component: live tree plus pending queue. -/
structure ConfigMixin where
  config : ConfigNode
  queue : List ConfigNode

/-- `ConfigMixin.__init__`: an empty parent tree and an empty deque. -/
def ConfigMixin.mixinInit : ConfigMixin :=
  { config := .parent [], queue := [] }

/-- `set_config`: append a (deep copy of the) new tree to the queue;
the live tree is not touched. -/
def ConfigMixin.set_config (m : ConfigMixin) (c : ConfigNode) : ConfigMixin :=
  { m with queue := m.queue ++ [c] }

/-- The loop `while self._configmixin_queue: self.config = popleft();
result = True`, carried out on (live tree, remaining queue, result). -/
def updateLoop : ConfigNode → List ConfigNode → Bool → ConfigNode × Bool
  | cfg, [], r => (cfg, r)
  | _, c :: q, _ => updateLoop c q true

/-- `update_config`: drain the queue, adopt each snapshot in turn (the
last one wins), report whether any adoption happened. -/
def ConfigMixin.update_config (m : ConfigMixin) : ConfigMixin × Bool :=
  let r := updateLoop m.config m.queue false
  ({ config := r.1, queue := [] }, r.2)

/-- `get_config`: first `self.update_config()`, then return a deep copy
of the live tree. -/
def ConfigMixin.get_config (m : ConfigMixin) : ConfigMixin × ConfigNode :=
  let r := m.update_config
  (r.1, r.1.config)

/-! ## `ObjectPool` (objectpool.py lines 45-75)

Objects made by the factory are identified by creation index: the i-th
factory invocation returns object `i`.  `obj_list` holds the weak
references to the not-yet-released objects, `next_id` counts factory
invocations, and `callbacks` records, in order, every object passed to
the callback.  A release notification for an object not in `obj_list`
would raise `ValueError` from `list.remove` (weak references fire at most
once per object, so this cannot happen in the source); it is modelled as
`none`. -/

/-- The state of an `ObjectPool`. -/
structure ObjectPool where
  obj_list : List Nat
  next_id : Nat
  callbacks : List Nat
deriving DecidableEq, Repr

/-- `_new_object`: call the factory, keep a weak reference to the new
object, hand the object to the callback. -/
def ObjectPool.new_object (p : ObjectPool) : ObjectPool :=
  { obj_list := p.obj_list ++ [p.next_id],
    next_id := p.next_id + 1,
    callbacks := p.callbacks ++ [p.next_id] }

/-- The constructor loop `for i in range(size): self._new_object()`. -/
def ObjectPool.initLoop : Nat → ObjectPool → ObjectPool
  | 0, p => p
  | n + 1, p => ObjectPool.initLoop n p.new_object

/-- `ObjectPool.__init__(factory, size, callback)`: start from an empty
`obj_list` and eagerly create `size` objects. -/
def ObjectPool.mkPool (size : Nat) : ObjectPool :=
  ObjectPool.initLoop size { obj_list := [], next_id := 0, callbacks := [] }

/-- `_release(obj)`: `self.obj_list.remove(obj)` then `self._new_object()`.
`none` models the `ValueError` a stale notification would raise. -/
def ObjectPool.release (p : ObjectPool) (obj : Nat) : Option ObjectPool :=
  if obj ∈ p.obj_list then
    some (ObjectPool.new_object { p with obj_list := p.obj_list.erase obj })
  else none

/-- A sequence of release notifications, delivered in order. -/
def ObjectPool.runReleases : ObjectPool → List Nat → Option ObjectPool
  | p, [] => some p
  | p, o :: os =>
    match p.release o with
    | none => none
    | some p1 => p1.runReleases os

/-! ## Lemmas about the snapshot queue -/

/-- The drain loop ends on the last queued snapshot (or the unchanged
live tree) and reports whether the queue was nonempty. -/
theorem updateLoop_eq (q : List ConfigNode) :
    ∀ (cfg : ConfigNode) (r : Bool),
    updateLoop cfg q r = (q.getLastD cfg, r || !q.isEmpty) := by
  induction q with
  | nil => intro cfg r; simp [updateLoop]
  | cons c q ih =>
    intro cfg r
    simp only [updateLoop, ih]
    cases q <;> simp [List.getLastD]

/-- A sequence of `set_config` calls only appends the snapshots, in call
order, to the queue; the live tree is untouched. -/
theorem foldl_set_config (cs : List ConfigNode) :
    ∀ m : ConfigMixin,
    cs.foldl ConfigMixin.set_config m
      = { config := m.config, queue := m.queue ++ cs } := by
  induction cs with
  | nil => intro m; simp
  | cons c cs ih => intro m; simp [ih, ConfigMixin.set_config]

/-- Claim C1: starting from an empty snapshot queue, after any sequence
of `set_config` calls a single `update_config` adopts exactly the last
enqueued snapshot as the new live tree (the unchanged tree when nothing
was enqueued), drains the queue completely, and returns `true` exactly
when at least one snapshot was adopted. -/
theorem update_config_adopts_last (m : ConfigMixin) (cs : List ConfigNode)
    (h : m.queue = []) :
    (cs.foldl ConfigMixin.set_config m).update_config
      = ({ config := cs.getLastD m.config, queue := [] }, !cs.isEmpty) ∧
    (((cs.foldl ConfigMixin.set_config m).update_config).2 = true ↔ cs ≠ []) := by
  have hm : cs.foldl ConfigMixin.set_config m
      = { config := m.config, queue := cs } := by
    rw [foldl_set_config, h]; simp
  constructor
  · rw [hm]
    simp [ConfigMixin.update_config, updateLoop_eq]
  · rw [hm]
    simp [ConfigMixin.update_config, updateLoop_eq, List.isEmpty_iff]

/-- Witness for C1 at a concrete component: two snapshots are enqueued,
`update_config` adopts the second and reports an update. -/
theorem update_config_adopts_last_witness :
    ConfigMixin.mixinInit.queue = [] ∧
    (([ConfigNode.parent [],
       ConfigNode.leaf (.str (ConfigStr.init (.vstr "x") false))].foldl
        ConfigMixin.set_config ConfigMixin.mixinInit).update_config
      = ({ config := ConfigNode.leaf (.str (ConfigStr.init (.vstr "x") false)),
           queue := [] }, true)) :=
  ⟨rfl,
   (update_config_adopts_last ConfigMixin.mixinInit
      [ConfigNode.parent [],
       ConfigNode.leaf (.str (ConfigStr.init (.vstr "x") false))] rfl).1⟩

/-- Claim C9: the round trip `set_config(get_config())` followed by
adoption via `update_config` leaves the live tree unchanged: the adopted
tree is (deeply) equal to the tree `get_config` returned, which is the
live tree as of the `get_config` call. -/
theorem set_config_get_config_roundtrip (m : ConfigMixin) :
    (((m.get_config).1.set_config (m.get_config).2).update_config).1.config
        = (m.get_config).1.config ∧
    (((m.get_config).1.set_config (m.get_config).2).update_config).1.config
        = (m.get_config).2 ∧
    (((m.get_config).1.set_config (m.get_config).2).update_config).1.queue
        = [] :=
  ⟨rfl, rfl, rfl⟩

/-- Claim C10: `get_config` drains the pending queue as a side effect:
after any sequence of `set_config` calls (from an empty queue) it adopts
the last enqueued snapshot into the live tree, empties the queue, returns
a copy equal to that snapshot, and an immediately following
`update_config` reports no update. -/
theorem get_config_drains_queue (m : ConfigMixin) (cs : List ConfigNode)
    (h : m.queue = []) :
    (cs.foldl ConfigMixin.set_config m).get_config
      = ({ config := cs.getLastD m.config, queue := [] },
         cs.getLastD m.config) ∧
    ((((cs.foldl ConfigMixin.set_config m).get_config).1.update_config).2
      = false) := by
  have hm : cs.foldl ConfigMixin.set_config m
      = { config := m.config, queue := cs } := by
    rw [foldl_set_config, h]; simp
  constructor
  · rw [hm]
    simp [ConfigMixin.get_config, ConfigMixin.update_config, updateLoop_eq]
  · rw [hm]
    simp [ConfigMixin.get_config, ConfigMixin.update_config, updateLoop_eq]

/-- Witness for C10 at a concrete component: after two `set_config`
calls, `get_config` returns the second snapshot, and `update_config`
right after returns `false`. -/
theorem get_config_drains_queue_witness :
    ConfigMixin.mixinInit.queue = [] ∧
    (([ConfigNode.parent [],
       ConfigNode.leaf (.path (ConfigPath.init (.vstr "p") false))].foldl
        ConfigMixin.set_config ConfigMixin.mixinInit).get_config
      = ({ config := ConfigNode.leaf (.path (ConfigPath.init (.vstr "p") false)),
           queue := [] },
         ConfigNode.leaf (.path (ConfigPath.init (.vstr "p") false)))) ∧
    ((((([ConfigNode.parent [],
       ConfigNode.leaf (.path (ConfigPath.init (.vstr "p") false))].foldl
        ConfigMixin.set_config ConfigMixin.mixinInit)).get_config).1.update_config).2
      = false) :=
  ⟨rfl,
   (get_config_drains_queue ConfigMixin.mixinInit
      [ConfigNode.parent [],
       ConfigNode.leaf (.path (ConfigPath.init (.vstr "p") false))] rfl).1,
   (get_config_drains_queue ConfigMixin.mixinInit
      [ConfigNode.parent [],
       ConfigNode.leaf (.path (ConfigPath.init (.vstr "p") false))] rfl).2⟩

/-! ## Lemmas about the object pool -/

/-- Creating one object and then `n` more is the same as creating `n`
and then one more. -/
theorem initLoop_new_object (n : Nat) :
    ∀ p : ObjectPool,
    ObjectPool.initLoop n p.new_object = (ObjectPool.initLoop n p).new_object := by
  induction n with
  | zero => intro p; rfl
  | succ n ih =>
    intro p
    rw [ObjectPool.initLoop, ih, ObjectPool.initLoop]

/-- The freshly constructed pool: objects `0 .. size-1` are live and each
was handed to the callback once, in creation order. -/
theorem mkPool_eq (size : Nat) :
    ObjectPool.mkPool size
      = { obj_list := List.range size, next_id := size,
          callbacks := List.range size } := by
  induction size with
  | zero => rfl
  | succ n ih =>
    have h1 : ObjectPool.mkPool (n + 1) = (ObjectPool.mkPool n).new_object := by
      rw [ObjectPool.mkPool, ObjectPool.initLoop, initLoop_new_object]
      rfl
    rw [h1, ih]
    simp [ObjectPool.new_object, List.range_succ]

/-- One release notification removes the released object, creates exactly
one replacement with the next fresh id, and hands it to the callback. -/
theorem release_eq (p : ObjectPool) (o : Nat) (p1 : ObjectPool)
    (h : p.release o = some p1) :
    p1.obj_list.length = p.obj_list.length ∧
    p1.next_id = p.next_id + 1 ∧
    p1.callbacks = p.callbacks ++ [p.next_id] := by
  by_cases hm : o ∈ p.obj_list
  · have hlen : 0 < p.obj_list.length := List.length_pos.mpr (by
      intro he; rw [he] at hm; exact (List.not_mem_nil o) hm)
    rw [ObjectPool.release, if_pos hm] at h
    cases h
    refine ⟨?_, rfl, rfl⟩
    simp [ObjectPool.new_object, List.length_erase_of_mem hm]
    omega
  · rw [ObjectPool.release, if_neg hm] at h
    cases h

/-- Any sequence of valid release notifications keeps the live set at its
size, performs one factory call per release, and extends the callback
record by the fresh ids, one per release. -/
theorem runReleases_eq (os : List Nat) :
    ∀ (p p1 : ObjectPool), p.runReleases os = some p1 →
    p1.obj_list.length = p.obj_list.length ∧
    p1.next_id = p.next_id + os.length ∧
    (p.callbacks = List.range p.next_id →
      p1.callbacks = List.range p1.next_id) := by
  induction os with
  | nil =>
    intro p p1 h
    cases h
    exact ⟨rfl, rfl, fun h => by rw [h]⟩
  | cons o os ih =>
    intro p p1 h
    rw [ObjectPool.runReleases] at h
    cases hr : p.release o with
    | none => rw [hr] at h; cases h
    | some p2 =>
      rw [hr] at h
      obtain ⟨h1, h2, h3⟩ := release_eq p o p2 hr
      obtain ⟨g1, g2, g3⟩ := ih p2 p1 h
      refine ⟨by rw [g1, h1], by rw [g2, h2, List.length_cons]; omega,
        fun hc => ?_⟩
      exact g3 (by rw [h3, hc, h2, ← List.range_succ])

/-- Claim C2: a pool of capacity `N >= 1` eagerly creates exactly `N`
objects at construction and hands each to the callback exactly once
(the callback record is the duplicate-free list of the `N` created
objects); under any subsequent sequence of release notifications the
number of live (not-yet-released) pool objects never exceeds `N`. -/
theorem pool_capacity_invariant (N : Nat) (os : List Nat) (p1 : ObjectPool)
    (h1 : 1 ≤ N) (h2 : (ObjectPool.mkPool N).runReleases os = some p1) :
    (ObjectPool.mkPool N).next_id = N ∧
    (ObjectPool.mkPool N).callbacks = List.range N ∧
    (ObjectPool.mkPool N).callbacks.Nodup ∧
    (ObjectPool.mkPool N).obj_list.length = N ∧
    p1.obj_list.length ≤ N := by
  obtain ⟨g1, _g2, _g3⟩ := runReleases_eq os _ p1 h2
  rw [mkPool_eq] at g1 ⊢
  refine ⟨rfl, rfl, List.nodup_range _, by simp, ?_⟩
  rw [g1]
  simp

/-- Witness for C2: capacity 2, releasing objects 0 then 1; at most 2
objects are ever live. -/
theorem pool_capacity_invariant_witness :
    1 ≤ 2 ∧
    ((ObjectPool.mkPool 2).runReleases [0, 1]
      = some { obj_list := [2, 3], next_id := 4, callbacks := [0, 1, 2, 3] }) ∧
    ((ObjectPool.mkPool 2).next_id = 2 ∧
     (ObjectPool.mkPool 2).callbacks = List.range 2 ∧
     (ObjectPool.mkPool 2).callbacks.Nodup ∧
     (ObjectPool.mkPool 2).obj_list.length = 2 ∧
     (ObjectPool.mk [2, 3] 4 [0, 1, 2, 3]).obj_list.length ≤ 2) :=
  ⟨by decide, by decide,
   pool_capacity_invariant 2 [0, 1] ⟨[2, 3], 4, [0, 1, 2, 3]⟩
     (by decide) (by decide)⟩

/-- Claim C3: from a pool of capacity `N`, a sequence of `k ≤ N` release
notifications of live objects causes exactly `k` further factory
invocations and exactly `k` further callback invocations, each with a
distinct, newly constructed object: the callback record grows from the
`N` initial objects to the duplicate-free enumeration of all `N + k`
objects ever constructed. -/
theorem pool_replenishment (N k : Nat) (os : List Nat) (p1 : ObjectPool)
    (h1 : os.length = k) (h2 : k ≤ N)
    (h3 : (ObjectPool.mkPool N).runReleases os = some p1) :
    p1.next_id = N + k ∧
    p1.callbacks = List.range (N + k) ∧
    p1.callbacks.Nodup ∧
    p1.callbacks.length = N + k := by
  obtain ⟨_g1, g2, g3⟩ := runReleases_eq os _ p1 h3
  rw [mkPool_eq] at g2 g3
  simp only [h1] at g2
  have hc : p1.callbacks = List.range p1.next_id := g3 rfl
  refine ⟨g2, by rw [hc, g2], by rw [hc]; exact List.nodup_range _, ?_⟩
  rw [hc, g2]
  simp

/-- Witness for C3: capacity 3, releasing `k = 2` live objects makes
exactly two replacements, objects 3 and 4, each passed to the callback
once. -/
theorem pool_replenishment_witness :
    ([1, 0] : List Nat).length = 2 ∧ 2 ≤ 3 ∧
    ((ObjectPool.mkPool 3).runReleases [1, 0]
      = some { obj_list := [2, 3, 4], next_id := 5,
               callbacks := [0, 1, 2, 3, 4] }) ∧
    ((ObjectPool.mk [2, 3, 4] 5 [0, 1, 2, 3, 4]).next_id = 3 + 2 ∧
     (ObjectPool.mk [2, 3, 4] 5 [0, 1, 2, 3, 4]).callbacks = List.range (3 + 2) ∧
     (ObjectPool.mk [2, 3, 4] 5 [0, 1, 2, 3, 4]).callbacks.Nodup ∧
     (ObjectPool.mk [2, 3, 4] 5 [0, 1, 2, 3, 4]).callbacks.length = 3 + 2) :=
  ⟨by decide, by decide, by decide,
   pool_replenishment 3 2 [1, 0] ⟨[2, 3, 4], 5, [0, 1, 2, 3, 4]⟩
     (by decide) (by decide) (by decide)⟩

/-! ## Lemmas about leaf nodes -/

/-- After storing a value, the node holds that value. -/
theorem withValue_value (l : ConfigLeaf) (v : PyVal) :
    (l.withValue v).value = v := by
  cases l <;> rfl

/-- Unfolding `set` when validation succeeds. -/
theorem set_of_validate_true (l : ConfigLeaf) (v : PyVal)
    (h : (l.validateStep v).1 = true) :
    l.set v = ((l.validateStep v).2.withValue v, none) := by
  simp [ConfigLeaf.set, h]

/-- Unfolding `set` when validation fails. -/
theorem set_of_validate_false (l : ConfigLeaf) (v : PyVal)
    (h : (l.validateStep v).1 = false) :
    l.set v = ((l.validateStep v).2, some v) := by
  simp [ConfigLeaf.set, h]

/-- An extendable enum validation cannot fail: the unknown value was
just appended to `choices`. -/
theorem enum_validateStep_of_extendable (n : ConfigEnumNode) (v : PyVal)
    (he : (n.extendable && !n.choices.contains v) = true) :
    (ConfigLeaf.enum n).validateStep v
      = (true, .enum { n with choices := n.choices ++ [v] }) := by
  simp only [ConfigLeaf.validateStep, ConfigEnum.validate, if_pos he]
  simp

/-- An enum validation that performs no extension. -/
theorem enum_validateStep_of_no_extension (n : ConfigEnumNode) (v : PyVal)
    (he : ¬ (n.extendable && !n.choices.contains v) = true) :
    (ConfigLeaf.enum n).validateStep v = (n.choices.contains v, .enum n) := by
  simp only [ConfigLeaf.validateStep, ConfigEnum.validate, if_neg he]

/-- A failing validation leaves the node untouched (the only mutating
validation, `ConfigEnum.validate` on an extendable node, always
succeeds after extending `choices`). -/
theorem validateStep_false (l : ConfigLeaf) (v : PyVal)
    (h : (l.validateStep v).1 = false) : (l.validateStep v).2 = l := by
  cases l with
  | enum n =>
    by_cases he : (n.extendable && !n.choices.contains v) = true
    · rw [enum_validateStep_of_extendable n v he] at h
      cases h
    · rw [enum_validateStep_of_no_extension n v he]
  | int n => rfl
  | float n => rfl
  | str n => rfl
  | path n => rfl

/-- A single `set` keeps the node's value valid. -/
theorem set_preserves_valid (l : ConfigLeaf) (v : PyVal)
    (h : l.valueValid = true) : ((l.set v).1).valueValid = true := by
  cases hs : (l.validateStep v).1 with
  | false =>
    rw [set_of_validate_false l v hs]
    show ((l.validateStep v).2).valueValid = true
    rw [validateStep_false l v hs]
    exact h
  | true =>
    rw [set_of_validate_true l v hs]
    show ((l.validateStep v).2.withValue v).valueValid = true
    cases l with
    | int n => exact hs
    | float n => exact hs
    | str n => exact hs
    | path n => exact hs
    | enum n =>
      by_cases he : (n.extendable && !n.choices.contains v) = true
      · rw [enum_validateStep_of_extendable n v he]
        simp [ConfigLeaf.withValue, ConfigLeaf.valueValid]
      · rw [enum_validateStep_of_no_extension n v he]
        rw [enum_validateStep_of_no_extension n v he] at hs
        exact hs

/-- Claim C4 (amended): a leaf node whose current value satisfies its own
validation keeps that invariant across any sequence of `set` operations,
successful or rejected (`get` and `clip` do not touch the stored value at
all).  The invariant is NOT established by construction: an explicit
initial value is stored unvalidated (see the counterexample). -/
theorem leaf_valid_preserved (vs : List PyVal) (l : ConfigLeaf)
    (h : l.valueValid = true) :
    (vs.foldl (fun a v => (ConfigLeaf.set a v).1) l).valueValid = true := by
  induction vs generalizing l with
  | nil => exact h
  | cons v vs ih => exact ih _ (set_preserves_valid l v h)

/-- Witness for C4 (amended): a valid string node stays valid across a
rejected `set(3)` and an accepted `set("b")`. -/
theorem leaf_valid_preserved_witness :
    (ConfigLeaf.str (ConfigStr.init (.vstr "a") false)).valueValid = true ∧
    (([PyVal.vint 3, PyVal.vstr "b"].foldl
        (fun a v => (ConfigLeaf.set a v).1)
        (ConfigLeaf.str (ConfigStr.init (.vstr "a") false))).valueValid
      = true) :=
  ⟨by decide,
   leaf_valid_preserved [PyVal.vint 3, PyVal.vstr "b"]
     (ConfigLeaf.str (ConfigStr.init (.vstr "a") false)) (by decide)⟩

/-- Counterexample to C4 as stated: `ConfigInt(value=0, min_value=1,
max_value=10)` stores value `0` unvalidated, so immediately after
construction the node's value fails its own validation predicate. -/
theorem leaf_valid_construction_counterexample :
    (ConfigLeaf.int (ConfigInt.init (.vint 0) false (some 1) (some 10))).valueValid
      = false := by decide

/-- Claim C5: for every leaf node and candidate value, `set` raises
`ValueError` carrying the offending value exactly when the node's
validation rejects it, in which case the node is unchanged; on success it
returns normally and the stored value is the new value. -/
theorem leaf_set_validation (l : ConfigLeaf) (v : PyVal) :
    ((l.set v).2 = some v ↔ (l.validateStep v).1 = false) ∧
    ((l.set v).2 = some v → (l.set v).1 = l) ∧
    ((l.set v).2 = none → (l.set v).1.value = v) := by
  cases hs : (l.validateStep v).1 with
  | false =>
    have hl := validateStep_false l v hs
    refine ⟨by simp [ConfigLeaf.set, hs], ?_, ?_⟩
    · intro _; simp [ConfigLeaf.set, hs, hl]
    · intro hn; rw [ConfigLeaf.set] at hn; simp [hs] at hn
  | true =>
    refine ⟨by simp [ConfigLeaf.set, hs], ?_, ?_⟩
    · intro hn; rw [ConfigLeaf.set] at hn; simp [hs] at hn
    · intro _; simp [ConfigLeaf.set, hs, withValue_value]

/-- Witness for C5: on an int node with bounds 1..10, `set(7)` succeeds
and stores 7; `set(0)` is rejected and leaves the node unchanged. -/
theorem leaf_set_validation_witness :
    ((ConfigLeaf.int (ConfigInt.init .vnone false (some 1) (some 10))).set
        (.vint 7)).2 = none ∧
    ((ConfigLeaf.int (ConfigInt.init .vnone false (some 1) (some 10))).set
        (.vint 7)).1.value = .vint 7 ∧
    ((ConfigLeaf.int (ConfigInt.init .vnone false (some 1) (some 10))).set
        (.vint 0)).1
      = ConfigLeaf.int (ConfigInt.init .vnone false (some 1) (some 10)) :=
  ⟨by decide,
   (leaf_set_validation (ConfigLeaf.int (ConfigInt.init .vnone false (some 1)
      (some 10))) (.vint 7)).2.2 (by decide),
   (leaf_set_validation (ConfigLeaf.int (ConfigInt.init .vnone false (some 1)
      (some 10))) (.vint 0)).2.1 (by decide)⟩

/-- Claim C6 (amended): for numeric nodes, on arguments of the node's own
numeric type, `validate` holds exactly when `clip` returns the argument
unchanged; on an argument of any other type `validate` is `false`
regardless of `clip` (the `isinstance` conjunct).  With bounds 1..10,
`set(0)` and `set(11)` fail and `set(5)` succeeds, storing 5.  `clip`
itself is a pure function of the node and never changes the stored
value. -/
theorem validate_clip_relation (n : ConfigIntNode) (nf : ConfigFloatNode)
    (k : Int) (x : Rat) (v : PyVal) (hv : ∀ j : Int, v ≠ .vint j) :
    (ConfigInt.validate n (.vint k) = true ↔
      ConfigInt.clip n (.vint k) = some (.vint k)) ∧
    (ConfigFloat.validate nf (.vfloat x) = true ↔
      ConfigFloat.clip nf (.vfloat x) = some (.vfloat x)) ∧
    ConfigInt.validate n v = false ∧
    ((ConfigLeaf.int (ConfigInt.init .vnone false (some 1) (some 10))).set
        (.vint 0)).2 = some (.vint 0) ∧
    ((ConfigLeaf.int (ConfigInt.init .vnone false (some 1) (some 10))).set
        (.vint 11)).2 = some (.vint 11) ∧
    ((ConfigLeaf.int (ConfigInt.init .vnone false (some 1) (some 10))).set
        (.vint 5)).2 = none ∧
    ((ConfigLeaf.int (ConfigInt.init .vnone false (some 1) (some 10))).set
        (.vint 5)).1.value = .vint 5 := by
  refine ⟨?_, ?_, ?_, by decide, by decide, by decide, by decide⟩
  · simp [ConfigInt.validate]
  · simp [ConfigFloat.validate]
  · cases v with
    | vint j => exact absurd rfl (hv j)
    | vnone => rfl
    | vfloat _ => rfl
    | vstr _ => rfl

/-- Witness for C6 (amended) on the bounds-1..10 node: `validate(5)`
agrees with `clip` fixing 5, and a non-int argument is rejected by
`validate`. -/
theorem validate_clip_relation_witness :
    (ConfigInt.validate (ConfigInt.init .vnone false (some 1) (some 10))
        (.vint 5) = true ↔
      ConfigInt.clip (ConfigInt.init .vnone false (some 1) (some 10))
        (.vint 5) = some (.vint 5)) ∧
    ConfigInt.validate (ConfigInt.init .vnone false (some 1) (some 10))
        (.vstr "a") = false :=
  ⟨(validate_clip_relation (ConfigInt.init .vnone false (some 1) (some 10))
      (ConfigFloat.init .vnone false none none 8 false) 5 5 (.vstr "a")
      (fun j h => PyVal.noConfusion h)).1,
   (validate_clip_relation (ConfigInt.init .vnone false (some 1) (some 10))
      (ConfigFloat.init .vnone false none none 8 false) 5 5 (.vstr "a")
      (fun j h => PyVal.noConfusion h)).2.2.1⟩

/-- Counterexample to C6 as stated: on the int node with bounds 1..10 the
float value 5.0 is a fixed point of `clip` yet `validate` rejects it, so
`validate(v) == (clip(v) == v)` does not hold for every value `v`. -/
theorem validate_clip_counterexample :
    ConfigInt.clip (ConfigInt.init .vnone false (some 1) (some 10))
        (.vfloat 5) = some (.vfloat 5) ∧
    ConfigInt.validate (ConfigInt.init .vnone false (some 1) (some 10))
        (.vfloat 5) = false := by decide

/-- Claim C7: a non-extendable enum accepts exactly the members of
`choices` and a rejected `set` leaves the node unchanged; an extendable
enum, on an unknown value, appends it to `choices` and then accepts it as
the new value. -/
theorem enum_set_membership (n : ConfigEnumNode) (v : PyVal) :
    (n.extendable = false →
      (((ConfigLeaf.enum n).set v).2 = none ↔ n.choices.contains v = true)) ∧
    (n.extendable = false → n.choices.contains v = false →
      (ConfigLeaf.enum n).set v = (.enum n, some v)) ∧
    (n.extendable = true → n.choices.contains v = false →
      (ConfigLeaf.enum n).set v
        = (.enum { n with value := v, choices := n.choices ++ [v] }, none)) := by
  refine ⟨fun he => ?_, fun he hc => ?_, fun he hc => ?_⟩
  · have hns : ¬ (n.extendable && !n.choices.contains v) = true := by simp [he]
    cases hc : n.choices.contains v with
    | true =>
      have hs : ((ConfigLeaf.enum n).validateStep v).1 = true := by
        rw [enum_validateStep_of_no_extension n v hns]; exact hc
      rw [set_of_validate_true _ _ hs]
      simp [hc]
    | false =>
      have hs : ((ConfigLeaf.enum n).validateStep v).1 = false := by
        rw [enum_validateStep_of_no_extension n v hns]; exact hc
      rw [set_of_validate_false _ _ hs]
      simp [hc]
  · have hns : ¬ (n.extendable && !n.choices.contains v) = true := by simp [he]
    have hs : ((ConfigLeaf.enum n).validateStep v).1 = false := by
      rw [enum_validateStep_of_no_extension n v hns]; exact hc
    rw [set_of_validate_false _ _ hs, validateStep_false _ _ hs]
  · have hc1 : v ∉ n.choices := by simpa using hc
    have hex : (n.extendable && !n.choices.contains v) = true := by
      simp [he, hc1]
    have hs : ((ConfigLeaf.enum n).validateStep v).1 = true := by
      rw [enum_validateStep_of_extendable n v hex]
    rw [set_of_validate_true _ _ hs, enum_validateStep_of_extendable n v hex]
    rfl

/-- The concrete enum node with `choices = ["off","on"]`, as built by
`ConfigEnum.__init__`. -/
def enumOffOn (ext : Bool) : ConfigEnumNode :=
  { value := .vstr "off", dynamic := false, default := .vstr "off",
    choices := [.vstr "off", .vstr "on"], extendable := ext }

/-- Witness for C7: `choices = ["off","on"]`; non-extendable rejects
"maybe" leaving the node unchanged and accepts "on"; extendable appends
"maybe" and accepts it. -/
theorem enum_set_membership_witness :
    ConfigEnum.init [.vstr "off", .vstr "on"] false false
      = some (enumOffOn false) ∧
    ((ConfigLeaf.enum (enumOffOn false)).set (.vstr "maybe")
      = (.enum (enumOffOn false), some (.vstr "maybe"))) ∧
    (((ConfigLeaf.enum (enumOffOn false)).set (.vstr "on")).2 = none) ∧
    ((ConfigLeaf.enum (enumOffOn true)).set (.vstr "maybe")
      = (.enum { enumOffOn true with
                 value := .vstr "maybe",
                 choices := [.vstr "off", .vstr "on", .vstr "maybe"] }, none)) :=
  ⟨rfl,
   (enum_set_membership (enumOffOn false) (.vstr "maybe")).2.1 rfl (by decide),
   ((enum_set_membership (enumOffOn false) (.vstr "on")).1 rfl).mpr (by decide),
   (enum_set_membership (enumOffOn true) (.vstr "maybe")).2.2 rfl (by decide)⟩

/-! ## Lemmas about bulk `set` on a parent node -/

/-- One loop step when the key is missing: `KeyError`, nothing applied. -/
theorem setEntries_cons_missing (cs : List (String × ConfigNode))
    (k : String) (v : ConfigValue) (rest : List (String × ConfigValue))
    (h : lookupChild cs k = none) :
    setEntries cs ((k, v) :: rest) = (cs, some (.keyError k)) := by
  simp [setEntries, h]

/-- One loop step when the child's `set` raises: the exception propagates
and the loop stops, but the child's post-call state is kept. -/
theorem setEntries_cons_err (cs : List (String × ConfigNode))
    (k : String) (v : ConfigValue) (rest : List (String × ConfigValue))
    (c c1 : ConfigNode) (e : PyErr)
    (h : lookupChild cs k = some c) (h1 : ConfigNode.set c v = (c1, some e)) :
    setEntries cs ((k, v) :: rest) = (updateChild cs k c1, some e) := by
  simp [setEntries, h, h1]

/-- One loop step when the child's `set` succeeds: continue with the
updated child in place. -/
theorem setEntries_cons_ok (cs : List (String × ConfigNode))
    (k : String) (v : ConfigValue) (rest : List (String × ConfigValue))
    (c c1 : ConfigNode)
    (h : lookupChild cs k = some c) (h1 : ConfigNode.set c v = (c1, none)) :
    setEntries cs ((k, v) :: rest) = setEntries (updateChild cs k c1) rest := by
  simp [setEntries, h, h1]

/-- Claim C8 (amended): bulk `set` applies the mapping's entries one at a
time in mapping order; at the first entry whose child raises, the error
propagates and processing stops — the entries already applied keep their
new values (no rollback), the failing entry's child is left as its own
`set` left it, and the remaining entries are never applied.  Only when
every entry is accepted is the whole mapping applied. -/
theorem parent_bulk_set_no_rollback (pre : List (String × ConfigValue))
    (cs : List (String × ConfigNode)) (k : String) (v : ConfigValue)
    (rest : List (String × ConfigValue)) (c c1 : ConfigNode) (e : PyErr)
    (h1 : (setEntries cs pre).2 = none)
    (h2 : lookupChild (setEntries cs pre).1 k = some c)
    (h3 : ConfigNode.set c v = (c1, some e)) :
    setEntries cs (pre ++ (k, v) :: rest)
      = (updateChild (setEntries cs pre).1 k c1, some e) := by
  induction pre generalizing cs with
  | nil =>
    rw [List.nil_append]
    exact setEntries_cons_err cs k v rest c c1 e h2 h3
  | cons e0 pre ih =>
    obtain ⟨k0, v0⟩ := e0
    rw [List.cons_append]
    cases hl : lookupChild cs k0 with
    | none =>
      rw [setEntries_cons_missing cs k0 v0 pre hl] at h1
      cases h1
    | some c0 =>
      cases hr : ConfigNode.set c0 v0 with
      | mk c0' err0 =>
        cases err0 with
        | some e0 =>
          rw [setEntries_cons_err cs k0 v0 pre c0 c0' e0 hl hr] at h1
          cases h1
        | none =>
          rw [setEntries_cons_ok cs k0 v0 pre c0 c0' hl hr] at h1 h2
          rw [setEntries_cons_ok cs k0 v0 (pre ++ (k, v) :: rest) c0 c0' hl hr]
          rw [setEntries_cons_ok cs k0 v0 pre c0 c0' hl hr]
          exact ih (updateChild cs k0 c0') h1 h2

/-- The first child of the C8 scenario: an unbounded `ConfigInt`. -/
def c8childA : ConfigIntNode := ConfigInt.init .vnone false none none

/-- The second child of the C8 scenario: a `ConfigInt` with bounds 1..10. -/
def c8childB : ConfigIntNode := ConfigInt.init .vnone false (some 1) (some 10)

/-- The parent tree of the C8 scenario. -/
def c8tree : ConfigNode :=
  .parent [("a", .leaf (.int c8childA)), ("b", .leaf (.int c8childB))]

/-- The bulk mapping of the C8 scenario: a valid value for child "a"
followed by an out-of-bounds value for child "b". -/
def c8request : ConfigValue :=
  .dict [("a", .leaf (.vint 5)), ("b", .leaf (.vint 11))]

/-- Counterexample to C8 as stated: the bulk set `{a: 5, b: 11}` on the
tree `{a: Int(), b: Int(min=1, max=10)}` raises `ValueError(11)` for
child "b", yet afterwards child "a" holds 5 instead of its prior value 0
— a partial application of the mapping remains visible past the error. -/
theorem parent_bulk_set_counterexample :
    (ConfigNode.set c8tree c8request).2
      = some (.valueError (.leaf (.vint 11))) ∧
    (ConfigNode.set c8tree c8request).1
      = .parent [("a", .leaf (.int { c8childA with value := .vint 5 })),
                 ("b", .leaf (.int c8childB))] ∧
    c8childA.value = .vint 0 ∧
    ConfigLeaf.value (.int { c8childA with value := .vint 5 })
      ≠ ConfigLeaf.value (.int c8childA) :=
  ⟨rfl, rfl, rfl, by decide⟩

/-- Witness for C8 (amended) on the concrete C8 scenario: entry "a"
applies cleanly, entry "b" fails, and the bulk set stops there keeping
"a"'s new value. -/
theorem parent_bulk_set_no_rollback_witness :
    (setEntries [("a", .leaf (.int c8childA)), ("b", .leaf (.int c8childB))]
        [("a", .leaf (.vint 5))]).2 = none ∧
    lookupChild (setEntries
        [("a", .leaf (.int c8childA)), ("b", .leaf (.int c8childB))]
        [("a", .leaf (.vint 5))]).1 "b" = some (.leaf (.int c8childB)) ∧
    ConfigNode.set (.leaf (.int c8childB)) (.leaf (.vint 11))
      = (.leaf (.int c8childB), some (.valueError (.leaf (.vint 11)))) ∧
    setEntries [("a", .leaf (.int c8childA)), ("b", .leaf (.int c8childB))]
        ([("a", .leaf (.vint 5))] ++ [("b", .leaf (.vint 11))])
      = (updateChild (setEntries
          [("a", .leaf (.int c8childA)), ("b", .leaf (.int c8childB))]
          [("a", .leaf (.vint 5))]).1 "b" (.leaf (.int c8childB)),
         some (.valueError (.leaf (.vint 11)))) :=
  ⟨rfl, rfl, rfl,
   parent_bulk_set_no_rollback [("a", .leaf (.vint 5))]
     [("a", .leaf (.int c8childA)), ("b", .leaf (.int c8childB))]
     "b" (.leaf (.vint 11)) [] (.leaf (.int c8childB))
     (.leaf (.int c8childB)) (.valueError (.leaf (.vint 11)))
     rfl rfl rfl⟩

end Pyctools
